import Mathlib

/-!
# Verification of the market_data_download HTTP handlers

Shallow embedding of the five request handlers in `src/api/`
(`download.py`, `fetch_docs.py`, `save_docs.py`, `save_prices.py`,
`search.py`).  External services (yfinance, the GitHub file-commit API)
are modelled as oracles supplied in an environment record; each handler
is a pure function from its environment and its (already parsed, or
failed-to-parse) request to an HTTP status, an optional JSON body, and a
trace of the external calls it performed.  A `none` body means the
handler wrote no JSON response body (the status line may already have
been sent).
-/

/-- JSON values, as produced by the handlers' response construction.
Numeric payload cells coming back from the provider are carried as
opaque `Json` values (the handlers only pass them through). -/
inductive Json where
  | str : String → Json
  | null : Json
  | arr : List Json → Json
  | obj : List (String × Json) → Json
deriving Repr, BEq

/-- One external call (or sleep) performed by a handler; handlers return
a trace of these so that call counts and retry behaviour can be stated. -/
inductive CallEv where
  /-- a `yf.download(...)` invocation with the query string passed -/
  | yfDownload : String → CallEv
  /-- a `time.sleep(secs)` between retry attempts -/
  | sleep : Nat → CallEv
  /-- a `yf.Ticker(sym)` construction -/
  | yfTicker : String → CallEv
  /-- reading `ticker.news` -/
  | newsRead : CallEv
  /-- reading `ticker.recommendations` -/
  | recsRead : CallEv
  /-- the `Github(token)` / `get_repo(...)` initialisation block -/
  | repoInit : CallEv
  /-- `repo.get_contents(path)` -/
  | getContents : String → CallEv
  /-- `repo.update_file(path, message, content, sha)` -/
  | updateFile : String → String → String → String → CallEv
  /-- `repo.create_file(path, message, content)` -/
  | createFile : String → String → String → CallEv
deriving Repr, DecidableEq

instance : BEq CallEv := instBEqOfDecidableEq

/-- `max_retries = 3` in every handler that retries. -/
def max_retries : Nat := 3

/-- `retry_delay = 5` (seconds) in every handler that retries. -/
def retry_delay : Nat := 5

/-- The retry loop shared by the handlers
(`for attempt in range(max_retries): try: <call>; break / except: sleep
and continue, or re-raise on the last attempt`).  `oracle k` is the
outcome of the call on attempt number `k`; `ev` is the trace event the
call emits; the `Nat` arguments are the current attempt index and the
number of attempts remaining. -/
def retryGo {α : Type} (oracle : Nat → Except String α) (ev : CallEv) (delay : Nat) :
    Nat → Nat → Except String α × List CallEv
  | _, 0 => (Except.error "retry loop made no attempt", [])
  | attempt, remaining + 1 =>
    match oracle attempt with
    | Except.ok a => (Except.ok a, [ev])
    | Except.error e =>
      if remaining = 0 then
        (Except.error e, [ev])
      else
        let r := retryGo oracle ev delay (attempt + 1) remaining
        (r.1, ev :: CallEv.sleep delay :: r.2)

/-- Run the retry loop from attempt `0` with `maxRetries` attempts. -/
def retryRun {α : Type} (oracle : Nat → Except String α) (ev : CallEv)
    (maxRetries delay : Nat) : Except String α × List CallEv :=
  retryGo oracle ev delay 0 maxRetries

/-- Python truthiness of an optional string: `not x` is true for `None`
and for the empty string. -/
def optFalsy : Option String → Bool
  | none => true
  | some s => s = ""

/-- Build the single-key error object every `except` block writes. -/
def errObj (msg : String) : Json :=
  Json.obj [("error", Json.str msg)]

/-- Python's `str.strip()`: drop leading and trailing whitespace.
Implemented by structural recursion on the character list so that it
evaluates inside the kernel. -/
def pyStrip (s : String) : String :=
  ⟨(((s.data.dropWhile Char.isWhitespace).reverse.dropWhile
      Char.isWhitespace).reverse)⟩

/-- Python's `str.upper()` (the catalog contains only ASCII). -/
def pyUpper (s : String) : String :=
  ⟨s.data.map Char.toUpper⟩

/-- Python's `s.startswith(pre)`. -/
def pyStartsWith (s pre : String) : Bool :=
  pre.data.isPrefixOf s.data

/-! ## download.py -/

/-- One row of the price DataFrame returned by `yf.download`, after the
date index has been rendered.  `none` models a `NaN` cell
(`pd.notna(...)` false); a present numeric cell is carried as an opaque
`Json` value (the handler converts it with `float`/`int` and passes it
through). -/
structure OhlcvRow where
  date : Option String
  openV : Option Json
  highV : Option Json
  lowV : Option Json
  closeV : Option Json
  adjCloseV : Option Json
  volumeV : Option Json

/-- The field-by-field reshape of one price row performed by
`download.py` lines 51-59 / 66-74. -/
def rowJson (r : OhlcvRow) : Json :=
  Json.obj [("Date", Json.str (r.date.getD "")),
            ("Open", r.openV.getD Json.null),
            ("High", r.highV.getD Json.null),
            ("Low", r.lowV.getD Json.null),
            ("Close", r.closeV.getD Json.null),
            ("Adj Close", r.adjCloseV.getD Json.null),
            ("Volume", r.volumeV.getD Json.null)]

/-- The yfinance environment for `download.py`: the outcome of the
single-ticker call and of the grouped multi-ticker call, per query
string and per retry attempt.  A grouped result is an association list
from ticker symbol (the first column level) to that ticker's rows. -/
structure YfEnv where
  download1 : String → Nat → Except String (List OhlcvRow)
  downloadG : String → Nat → Except String (List (String × List OhlcvRow))

/-- `df.empty` for a grouped frame: no rows under any ticker column. -/
def groupedEmpty (g : List (String × List OhlcvRow)) : Bool :=
  g.all (fun p => p.2.isEmpty)

/-- `df[ticker]` guarded by `ticker in df.columns.levels[0]`
(`download.py` lines 62-64): the first ticker's rows, or `none`. -/
def groupLookup (t : String) (g : List (String × List OhlcvRow)) :
    Option (List OhlcvRow) :=
  (g.find? (fun p => p.1 = t)).map (fun p => p.2)

/-- A parsed `download` request body (`tickers`, `start`, `end`). -/
structure DownloadReq where
  tickers : List String
  start : Option String
  endDate : Option String

/-- The 200-response JSON of `download.py` (lines 82-87). -/
def downloadOkJson (data : List Json) (req : DownloadReq) : Json :=
  Json.obj [("data", Json.arr data),
            ("ticker", Json.str (req.tickers.headD "")),
            ("start", Json.str (req.start.getD "")),
            ("end", Json.str (req.endDate.getD ""))]

/-- The `try` body of `download.py`'s `do_POST`: validation, the retry
loop around `yf.download`, the emptiness check and the reshape.  Returns
the success JSON or the exception message, plus the external-call
trace.  `raw` is `Except.error e` when reading/parsing the request body
itself raised `e`. -/
def downloadBody (env : YfEnv) (raw : Except String DownloadReq) :
    Except String Json × List CallEv :=
  match raw with
  | Except.error e => (Except.error e, [])
  | Except.ok req =>
    if req.tickers.isEmpty || optFalsy req.start || optFalsy req.endDate then
      (Except.error "Missing required parameters", [])
    else if req.tickers.length = 1 then
      let t := req.tickers.headD ""
      let r := retryRun (env.download1 t) (CallEv.yfDownload t) max_retries retry_delay
      match r.1 with
      | Except.error e => (Except.error e, r.2)
      | Except.ok rows =>
        if rows.isEmpty then
          (Except.error ("No data found for ticker(s): " ++ String.intercalate ", " req.tickers), r.2)
        else
          (Except.ok (downloadOkJson (rows.map rowJson) req), r.2)
    else
      let q := String.intercalate " " req.tickers
      let r := retryRun (env.downloadG q) (CallEv.yfDownload q) max_retries retry_delay
      match r.1 with
      | Except.error e => (Except.error e, r.2)
      | Except.ok g =>
        if groupedEmpty g then
          (Except.error ("No data found for ticker(s): " ++ String.intercalate ", " req.tickers), r.2)
        else
          let t := req.tickers.headD ""
          let data :=
            match groupLookup t g with
            | some rs => rs.map rowJson
            | none => []
          (Except.ok (downloadOkJson data req), r.2)

/-- `download.py`'s `do_POST`: the `try` body, with every escaping
exception converted to a 400 response whose body is
`{"error": "Download failed: ..."}`. -/
def downloadHandler (env : YfEnv) (raw : Except String DownloadReq) :
    (Nat × Option Json) × List CallEv :=
  ((match (downloadBody env raw).1 with
    | Except.ok j => (200, some j)
    | Except.error e => (400, some (errObj ("Download failed: " ++ e)))),
   (downloadBody env raw).2)

/-! ## fetch_docs.py -/

/-- One item of the `ticker.news` feed, as consumed by
`fetch_docs.py` lines 41-49.  Each field is `none` when the key is
absent from the item dictionary; present non-string values are carried
as their rendered text. -/
structure NewsItem where
  uuid : Option String
  title : Option String
  publisher : Option String
  providerPublishTime : Option String
  link : Option String
  summary : Option String

/-- One analyst-recommendation row (`ticker.recommendations`), as
consumed by `fetch_docs.py` lines 57-65.  `idxName` is `row.name`
rendered by `str(...)`; `none` covers a falsy `row.name`. -/
structure RecRow where
  firm : Option String
  toGrade : Option String
  fromGrade : Option String
  idxName : Option String

/-- The reshape of the news item at position `idx` of the (truncated)
feed: `item.get('uuid', f"news_{len(news_data)}")` etc. -/
def newsJson (idx : Nat) (it : NewsItem) : Json :=
  Json.obj [("id", Json.str (it.uuid.getD ("news_" ++ toString idx))),
            ("title", Json.str (it.title.getD "")),
            ("publisher", Json.str (it.publisher.getD "")),
            ("publishedAt", Json.str (it.providerPublishTime.getD "")),
            ("url", Json.str (it.link.getD "")),
            ("summary", Json.str (it.summary.getD ""))]

/-- The reshape of the recommendation row at position `idx` of the last
ten rows. -/
def recJson (idx : Nat) (r : RecRow) : Json :=
  Json.obj [("id", Json.str ("research_" ++ toString idx)),
            ("title", Json.str (r.firm.getD "Unknown" ++ " - " ++ r.toGrade.getD "N/A")),
            ("publisher", Json.str (r.firm.getD "Unknown")),
            ("publishedAt", Json.str (r.idxName.getD "")),
            ("url", Json.str ""),
            ("summary", Json.str ("Grade: " ++ r.toGrade.getD "N/A" ++ ", Previous: " ++ r.fromGrade.getD "N/A"))]

/-- The yfinance environment for `fetch_docs.py`: the outcome of the
`yf.Ticker` construction per retry attempt, and the outcomes of the two
property reads.  `Except.error` on `news`/`recs` models an exception
raised while reading the feed; a `None`/empty recommendations frame is
modelled by the empty list. -/
structure DocsEnv where
  tickerInit : Nat → Except String Unit
  news : Except String (List NewsItem)
  recs : Except String (List RecRow)

/-- A parsed `fetch_docs` request: `data.get('ticker', '')`. -/
structure DocsReq where
  ticker : String

/-- `news_data` of `fetch_docs.py`: the first ten feed items reshaped,
or the empty list when reading the feed raised (the inner
`try/except` swallows the exception). -/
def newsData (env : DocsEnv) : List Json :=
  match env.news with
  | Except.ok items => (items.take 10).mapIdx newsJson
  | Except.error _ => []

/-- `research_data` of `fetch_docs.py`: the last ten recommendation rows
reshaped, or the empty list when the read raised or the frame was
`None`/empty. -/
def researchData (env : DocsEnv) : List Json :=
  match env.recs with
  | Except.ok rows => ((rows.drop (rows.length - 10)).mapIdx recJson)
  | Except.error _ => []

/-- The 200-response JSON of `fetch_docs.py` (lines 75-79). -/
def docsOkJson (env : DocsEnv) (tsym : String) : Json :=
  Json.obj [("news", Json.arr (newsData env)),
            ("research", Json.arr (researchData env)),
            ("ticker", Json.str tsym)]

/-- The `try` body of `fetch_docs.py`'s `do_POST`. -/
def fetchDocsBody (env : DocsEnv) (raw : Except String DocsReq) :
    Except String Json × List CallEv :=
  match raw with
  | Except.error e => (Except.error e, [])
  | Except.ok req =>
    let tsym := pyStrip req.ticker
    if tsym = "" then
      (Except.error "Ticker symbol is required", [])
    else
      let r := retryRun env.tickerInit (CallEv.yfTicker tsym) max_retries retry_delay
      match r.1 with
      | Except.error e => (Except.error e, r.2)
      | Except.ok _ =>
        (Except.ok (docsOkJson env tsym),
         r.2 ++ [CallEv.newsRead, CallEv.recsRead])

/-- `fetch_docs.py`'s `do_POST`: escaping exceptions become a 400
response with body `{"error": "Failed to fetch docs: ..."}`. -/
def fetchDocsHandler (env : DocsEnv) (raw : Except String DocsReq) :
    (Nat × Option Json) × List CallEv :=
  ((match (fetchDocsBody env raw).1 with
    | Except.ok j => (200, some j)
    | Except.error e => (400, some (errObj ("Failed to fetch docs: " ++ e)))),
   (fetchDocsBody env raw).2)

/-! ## search.py -/

/-- The static catalog `all_tickers` of `search.py` (lines 24-97), as a
list of `(symbol, name, type)` triples in dictionary insertion order. -/
def all_tickers : List (String × String × String) :=
  [("AAPL", "Apple Inc.", "Equity"),
   ("MSFT", "Microsoft Corporation", "Equity"),
   ("GOOGL", "Alphabet Inc. Class A", "Equity"),
   ("GOOG", "Alphabet Inc. Class C", "Equity"),
   ("AMZN", "Amazon.com Inc.", "Equity"),
   ("TSLA", "Tesla Inc.", "Equity"),
   ("META", "Meta Platforms Inc.", "Equity"),
   ("NVDA", "NVIDIA Corporation", "Equity"),
   ("NFLX", "Netflix Inc.", "Equity"),
   ("ADBE", "Adobe Inc.", "Equity"),
   ("CRM", "Salesforce Inc.", "Equity"),
   ("ORCL", "Oracle Corporation", "Equity"),
   ("IBM", "International Business Machines", "Equity"),
   ("JPM", "JPMorgan Chase & Co.", "Equity"),
   ("BAC", "Bank of America Corp.", "Equity"),
   ("WFC", "Wells Fargo & Company", "Equity"),
   ("GS", "Goldman Sachs Group Inc.", "Equity"),
   ("MS", "Morgan Stanley", "Equity"),
   ("V", "Visa Inc.", "Equity"),
   ("MA", "Mastercard Inc.", "Equity"),
   ("PYPL", "PayPal Holdings Inc.", "Equity"),
   ("JNJ", "Johnson & Johnson", "Equity"),
   ("PFE", "Pfizer Inc.", "Equity"),
   ("UNH", "UnitedHealth Group Inc.", "Equity"),
   ("MRNA", "Moderna Inc.", "Equity"),
   ("ABBV", "AbbVie Inc.", "Equity"),
   ("WMT", "Walmart Inc.", "Equity"),
   ("HD", "Home Depot Inc.", "Equity"),
   ("DIS", "Walt Disney Company", "Equity"),
   ("NKE", "Nike Inc.", "Equity"),
   ("SBUX", "Starbucks Corporation", "Equity"),
   ("MCD", "McDonald\x27s Corporation", "Equity"),
   ("KO", "Coca-Cola Company", "Equity"),
   ("PEP", "PepsiCo Inc.", "Equity"),
   ("XOM", "Exxon Mobil Corporation", "Equity"),
   ("CVX", "Chevron Corporation", "Equity"),
   ("NEE", "NextEra Energy Inc.", "Equity"),
   ("SPY", "SPDR S&P 500 ETF Trust", "ETF"),
   ("QQQ", "Invesco QQQ Trust", "ETF"),
   ("VTI", "Vanguard Total Stock Market ETF", "ETF"),
   ("IWM", "iShares Russell 2000 ETF", "ETF"),
   ("EFA", "iShares MSCI EAFE ETF", "ETF"),
   ("VEA", "Vanguard FTSE Developed Markets ETF", "ETF"),
   ("VWO", "Vanguard FTSE Emerging Markets ETF", "ETF"),
   ("GLD", "SPDR Gold Shares", "ETF"),
   ("SLV", "iShares Silver Trust", "ETF"),
   ("TLT", "iShares 20+ Year Treasury Bond ETF", "ETF"),
   ("BTC-USD", "Bitcoin USD", "Cryptocurrency"),
   ("ETH-USD", "Ethereum USD", "Cryptocurrency"),
   ("ADA-USD", "Cardano USD", "Cryptocurrency"),
   ("DOT-USD", "Polkadot USD", "Cryptocurrency"),
   ("DOGE-USD", "Dogecoin USD", "Cryptocurrency"),
   ("^GSPC", "S&P 500", "Index"),
   ("^DJI", "Dow Jones Industrial Average", "Index"),
   ("^IXIC", "NASDAQ Composite", "Index"),
   ("^RUT", "Russell 2000", "Index"),
   ("^VIX", "CBOE Volatility Index", "Index")]

/-- Python's substring test `needle in hay` on character lists. -/
def charsInfix (needle : List Char) : List Char → Bool
  | [] => needle.isEmpty
  | c :: rest => needle.isPrefixOf (c :: rest) || charsInfix needle rest

/-- Python's `needle in hay` on strings. -/
def isSubstr (needle hay : String) : Bool :=
  charsInfix needle.data hay.data

/-- One entry of the search result list. -/
structure SearchItem where
  symbol : String
  name : String
  typ : String
deriving Repr, DecidableEq

/-- The partial-match condition of `search.py` lines 120-122:
`query in symbol or symbol.startswith(query) or query in name.upper()`. -/
def searchMatch (query symbol nameUp : String) : Bool :=
  isSubstr query symbol || pyStartsWith symbol query || isSubstr query nameUp

/-- The exact-match seed of `search.py` lines 102-108: if `query` is a
key of the catalog, start the results with that entry. -/
def searchInit (query : String) : List SearchItem :=
  match all_tickers.find? (fun e => e.1 = query) with
  | some e => [⟨query, e.2.1, e.2.2⟩]
  | none => []

/-- The partial-match loop of `search.py` lines 111-127: walk the
catalog in order, stop once `limit` results are collected, skip symbols
already present, and append entries satisfying `searchMatch`. -/
def searchLoop (query : String) (limit : Nat) :
    List (String × String × String) → List SearchItem → List SearchItem
  | [], results => results
  | e :: rest, results =>
    if limit ≤ results.length then
      results
    else if results.any (fun r => r.symbol = e.1) then
      searchLoop query limit rest results
    else if searchMatch query e.1 (pyUpper e.2.1) then
      searchLoop query limit rest (results ++ [⟨e.1, e.2.1, e.2.2⟩])
    else
      searchLoop query limit rest results

/-- The relevance key of `search.py`'s `sort_key` (lines 130-137). -/
def sort_key (query : String) (item : SearchItem) : Nat × Nat :=
  if item.symbol = query then (0, item.symbol.length)
  else if pyStartsWith item.symbol query then (1, item.symbol.length)
  else (2, item.symbol.length)

/-- Python's tuple comparison on the sort keys: `results.sort(key=...)`
orders by relevance class, then by symbol length. -/
def keyLe (query : String) (a b : SearchItem) : Bool :=
  (sort_key query a).1 < (sort_key query b).1 ||
    ((sort_key query a).1 = (sort_key query b).1 &&
      (sort_key query a).2 ≤ (sort_key query b).2)

/-- The final result list for a non-empty processed query: collect,
sort by the relevance key, truncate to `limit`
(`search.py` lines 99-140).  Negative limits do not occur in the
claims, so `limit` is a natural number. -/
def searchResults (query : String) (limit : Nat) : List SearchItem :=
  (((searchLoop query limit all_tickers (searchInit query)).mergeSort
      (keyLe query)).take limit)

/-- A parsed `search` request: `q` is `none` when the key is absent. -/
structure SearchReq where
  q : Option String
  limit : Nat

/-- The JSON rendering of one search result entry. -/
def itemJson (it : SearchItem) : Json :=
  Json.obj [("symbol", Json.str it.symbol),
            ("name", Json.str it.name),
            ("type", Json.str it.typ)]

/-- `search.py`'s `do_POST`: empty processed query short-circuits to
`200 []`; otherwise the match/sort/truncate pipeline; an escaping
exception becomes a 500 response with body
`{"error": "Search failed: ..."}`.  The handler makes no external
calls, so no trace is returned. -/
def searchHandler (raw : Except String SearchReq) : Nat × Option Json :=
  match raw with
  | Except.error e => (500, some (errObj ("Search failed: " ++ e)))
  | Except.ok req =>
    let query := pyUpper (pyStrip (req.q.getD ""))
    if query.length < 1 then
      (200, some (Json.arr []))
    else
      (200, some (Json.arr ((searchResults query req.limit).map itemJson)))

/-! ## save_prices.py and save_docs.py -/

/-- The GitHub environment shared by the save handlers: the
`GITHUB_TOKEN` variable, the outcome of the `Github(token)` /
`get_repo("org/market-data")` initialisation per retry attempt, and the
outcomes of the three file-commit calls.  `getContents` returns the
existing file's SHA; `updateFile`/`createFile` return the resulting
commit SHA.  `today` is `dt.date.today().isoformat()` and `nowIso` is
`dt.datetime.now().isoformat()`. -/
structure GhEnv where
  token : Option String
  repoInit : Nat → Except String Unit
  getContents : String → Except String String
  updateFile : String → String → String → String → Except String String
  createFile : String → String → String → Except String String
  today : String
  nowIso : String

/-- The `try: get_contents; update_file / except: create_file` block
shared by `save_prices.py` (lines 56-71) and `save_docs.py`
(lines 59-74).  The bare `except:` catches a failure of `get_contents`
AND a failure of `update_file`; either routes to `create_file`.  A
failure of `create_file` itself propagates. -/
def persistFile (env : GhEnv) (path msg content : String) :
    Except String String × List CallEv :=
  match env.getContents path with
  | Except.ok sha =>
    match env.updateFile path msg content sha with
    | Except.ok commitSha =>
      (Except.ok commitSha,
       [CallEv.getContents path, CallEv.updateFile path msg content sha])
    | Except.error _ =>
      match env.createFile path msg content with
      | Except.ok commitSha =>
        (Except.ok commitSha,
         [CallEv.getContents path, CallEv.updateFile path msg content sha,
          CallEv.createFile path msg content])
      | Except.error e2 =>
        (Except.error e2,
         [CallEv.getContents path, CallEv.updateFile path msg content sha,
          CallEv.createFile path msg content])
  | Except.error _ =>
    match env.createFile path msg content with
    | Except.ok commitSha =>
      (Except.ok commitSha,
       [CallEv.getContents path, CallEv.createFile path msg content])
    | Except.error e2 =>
      (Except.error e2,
       [CallEv.getContents path, CallEv.createFile path msg content])

/-- The 200-response JSON shared by the save handlers:
`sha`, `githubUrl` built from the file path, and `path`. -/
def saveOkJson (commitSha filePath : String) : Json :=
  Json.obj [("sha", Json.str commitSha),
            ("githubUrl",
             Json.str ("https://github.com/org/market-data/blob/main/" ++ filePath)),
            ("path", Json.str filePath)]

/-- A parsed `save_prices` request.  Each price row is the JSON object
of the request rendered as an association list from key to the textual
form of its value; `dateRangeEnd` is `data.get('dateRange', {}).get('end')`
presence. -/
structure SavePricesReq where
  ticker : String
  priceData : List (List (String × String))
  dateRangeEnd : Option String

/-- `row.get(key, '')` on a price row. -/
def rowGet (row : List (String × String)) (key : String) : String :=
  ((row.find? (fun p => p.1 = key)).map (fun p => p.2)).getD ""

/-- One CSV line of `save_prices.py` line 48: the seven fields of the
row in header order, comma separated, newline terminated. -/
def csvLine (row : List (String × String)) : String :=
  rowGet row "Date" ++ "," ++ rowGet row "Open" ++ "," ++ rowGet row "High" ++ "," ++
    rowGet row "Low" ++ "," ++ rowGet row "Close" ++ "," ++ rowGet row "Adj Close" ++ "," ++
    rowGet row "Volume" ++ "\n"

/-- The CSV accumulation of `save_prices.py` lines 46-48: start from the
header line and append one line per row. -/
def csv_content (rows : List (List (String × String))) : String :=
  rows.foldl (fun acc r => acc ++ csvLine r) "Date,Open,High,Low,Close,Adj Close,Volume\n"

/-- The `try` body of `save_prices.py`'s `do_POST`. -/
def savePricesBody (env : GhEnv) (raw : Except String SavePricesReq) :
    Except String Json × List CallEv :=
  match raw with
  | Except.error e => (Except.error e, [])
  | Except.ok req =>
    let ticker := pyStrip req.ticker
    if ticker = "" || req.priceData.isEmpty then
      (Except.error "Ticker and data are required", [])
    else if optFalsy env.token then
      (Except.error "GitHub token not configured", [])
    else
      let r := retryRun env.repoInit CallEv.repoInit max_retries retry_delay
      match r.1 with
      | Except.error e => (Except.error e, r.2)
      | Except.ok _ =>
        let content := csv_content req.priceData
        let endDate := req.dateRangeEnd.getD env.today
        let path := "data/" ++ ticker ++ "/" ++ endDate ++ ".csv"
        let msg := "feat: " ++ ticker ++ " prices to " ++ endDate
        let p := persistFile env path msg content
        match p.1 with
        | Except.error e => (Except.error e, r.2 ++ p.2)
        | Except.ok commitSha => (Except.ok (saveOkJson commitSha path), r.2 ++ p.2)

/-- `save_prices.py`'s `do_POST`: escaping exceptions become a 500
response with body `{"error": "Failed to save prices: ..."}`. -/
def savePricesHandler (env : GhEnv) (raw : Except String SavePricesReq) :
    (Nat × Option Json) × List CallEv :=
  ((match (savePricesBody env raw).1 with
    | Except.ok j => (200, some j)
    | Except.error e => (500, some (errObj ("Failed to save prices: " ++ e)))),
   (savePricesBody env raw).2)

/-- A parsed `save_docs` request: `ticker`, `type` and the raw `items`
payload (opaque JSON values). -/
structure SaveDocsReq where
  ticker : String
  docType : String
  items : List Json

/-- A rendering of a JSON value to its serialized text, standing in for
the external `json.dumps(..., indent=2)` call.  Only the fact that the
content string is a function of the JSON value matters to the claims,
not the exact layout. -/
def jsonDumps : Json → String
  | Json.str s => "\x22" ++ s ++ "\x22"
  | Json.null => "null"
  | Json.arr xs =>
    "[" ++ String.intercalate ", " (xs.attach.map (fun x => jsonDumps x.1)) ++ "]"
  | Json.obj fs =>
    "\x7b" ++
      String.intercalate ", "
        (fs.attach.map (fun f => "\x22" ++ f.1.1 ++ "\x22: " ++ jsonDumps f.1.2)) ++
      "\x7d"
decreasing_by
  · have := List.sizeOf_lt_of_mem x.2
    simp only [Json.arr.sizeOf_spec]
    omega
  · have h1 := List.sizeOf_lt_of_mem f.2
    have h2 : sizeOf f.1.2 < sizeOf f.1 := by
      rcases f.1 with ⟨a, b⟩
      simp only [Prod.mk.sizeOf_spec]
      omega
    simp only [Json.obj.sizeOf_spec]
    omega

/-- The `try` body of `save_docs.py`'s `do_POST`. -/
def saveDocsBody (env : GhEnv) (req : SaveDocsReq) :
    Except String Json × List CallEv :=
  let ticker := pyStrip req.ticker
  let docType := pyStrip req.docType
  if ticker = "" || docType = "" || req.items.isEmpty then
    (Except.error "Ticker, type, and items are required", [])
  else if !(docType = "news" || docType = "research") then
    (Except.error "Type must be \x27news\x27 or \x27research\x27", [])
  else if optFalsy env.token then
    (Except.error "GitHub token not configured", [])
  else
    let r := retryRun env.repoInit CallEv.repoInit max_retries retry_delay
    match r.1 with
    | Except.error e => (Except.error e, r.2)
    | Except.ok _ =>
      let jsonContent := Json.obj [("asOf", Json.str (env.nowIso ++ "Z")),
                                   ("items", Json.arr req.items)]
      let path := docType ++ "/" ++ ticker ++ "/" ++ env.today ++ ".json"
      let msg := "feat: " ++ ticker ++ " " ++ docType ++ " to " ++ env.today
      let p := persistFile env path msg (jsonDumps jsonContent)
      match p.1 with
      | Except.error e => (Except.error e, r.2 ++ p.2)
      | Except.ok commitSha => (Except.ok (saveOkJson commitSha path), r.2 ++ p.2)

/-- `save_docs.py`'s `do_POST`.  The `except` block's message
interpolates the local variable `doc_type`; when the failure occurred
before line 17 bound it (e.g. the request body is not valid JSON), the
`except` block itself raises `NameError` after the 500 status line and
headers have been sent, so no JSON body is ever written: that case
yields `(500, none)`. -/
def saveDocsHandler (env : GhEnv) (raw : Except String SaveDocsReq) :
    (Nat × Option Json) × List CallEv :=
  match raw with
  | Except.error _ => ((500, none), [])
  | Except.ok req =>
    ((match (saveDocsBody env req).1 with
      | Except.ok j => (200, some j)
      | Except.error e =>
        (500, some (errObj ("Failed to save " ++ pyStrip req.docType ++ ": " ++ e)))),
     (saveDocsBody env req).2)

/-! ## Concrete fixtures for witnesses and counterexamples -/

/-- A concrete price row. -/
def cRow : OhlcvRow :=
  ⟨some "2024-01-02", some (Json.str "1.0"), some (Json.str "2.0"),
   some (Json.str "0.5"), some (Json.str "1.5"), none, some (Json.str "100")⟩

/-- A yfinance environment whose calls always succeed. -/
def cYfEnvOk : YfEnv where
  download1 := fun _ _ => Except.ok [cRow]
  downloadG := fun _ _ => Except.ok [("AAPL", [cRow]), ("MSFT", [cRow])]

/-- A yfinance environment whose calls always fail, with the attempt
index in the message. -/
def cYfEnvFail : YfEnv where
  download1 := fun _ k => Except.error ("boom" ++ toString k)
  downloadG := fun _ k => Except.error ("boom" ++ toString k)

/-- A valid single-ticker download request. -/
def cDownloadReq1 : DownloadReq := ⟨["AAPL"], some "2024-01-01", some "2024-02-01"⟩

/-- A valid two-ticker download request. -/
def cDownloadReq2 : DownloadReq := ⟨["AAPL", "MSFT"], some "2024-01-01", some "2024-02-01"⟩

/-- A docs environment where the ticker construction succeeds but
reading the news feed raises. -/
def cDocsEnvNewsFail : DocsEnv where
  tickerInit := fun _ => Except.ok ()
  news := Except.error "HTTPError 404"
  recs := Except.ok []

/-- A docs environment where both feed reads raise. -/
def cDocsEnvBothFail : DocsEnv where
  tickerInit := fun _ => Except.ok ()
  news := Except.error "HTTPError 404"
  recs := Except.error "HTTPError 500"

/-- A concrete fetch_docs request. -/
def cDocsReq : DocsReq := ⟨"AAPL"⟩

/-- A GitHub environment whose calls all succeed; the target file
already exists with SHA `"oldsha"`. -/
def cGhEnvOk : GhEnv where
  token := some "tok"
  repoInit := fun _ => Except.ok ()
  getContents := fun _ => Except.ok "oldsha"
  updateFile := fun _ _ _ _ => Except.ok "updatesha"
  createFile := fun _ _ _ => Except.ok "createsha"
  today := "2024-01-31"
  nowIso := "2024-01-31T12:00:00"

/-- A GitHub environment where the target file exists but the update
commit fails; the create commit succeeds. -/
def cGhEnvUpdateFail : GhEnv where
  token := some "tok"
  repoInit := fun _ => Except.ok ()
  getContents := fun _ => Except.ok "oldsha"
  updateFile := fun _ _ _ _ => Except.error "409 Conflict"
  createFile := fun _ _ _ => Except.ok "createsha"
  today := "2024-01-31"
  nowIso := "2024-01-31T12:00:00"

/-- A GitHub environment where the target file does not exist; the
existence check raises and the create commit succeeds. -/
def cGhEnvMissing : GhEnv where
  token := some "tok"
  repoInit := fun _ => Except.ok ()
  getContents := fun _ => Except.error "404 Not Found"
  updateFile := fun _ _ _ _ => Except.ok "updatesha"
  createFile := fun _ _ _ => Except.ok "createsha"
  today := "2024-01-31"
  nowIso := "2024-01-31T12:00:00"

/-- A GitHub environment with no token configured. -/
def cGhEnvNoToken : GhEnv where
  token := none
  repoInit := fun _ => Except.ok ()
  getContents := fun _ => Except.ok "oldsha"
  updateFile := fun _ _ _ _ => Except.ok "updatesha"
  createFile := fun _ _ _ => Except.ok "createsha"
  today := "2024-01-31"
  nowIso := "2024-01-31T12:00:00"

/-- A valid save_prices request with one row. -/
def cSavePricesReq : SavePricesReq :=
  ⟨"AAPL", [[("Date", "2024-01-31"), ("Open", "1.5"), ("Volume", "100")]],
   some "2024-01-31"⟩

/-- A valid save_docs request. -/
def cSaveDocsReq : SaveDocsReq := ⟨"AAPL", "news", [Json.str "item1"]⟩

/-! ## Claim-side predicates and trace accessors -/

/-- The four match rules named by the spec sentence about the search:
query equals the symbol, query is a substring of the symbol, the symbol
starts with the query, or the query is a substring of the uppercased
name. -/
def claimMatch (q : String) (it : SearchItem) : Prop :=
  q = it.symbol ∨ isSubstr q it.symbol = true ∨
    pyStartsWith it.symbol q = true ∨ isSubstr q (pyUpper it.name) = true

/-- The result entry is an entry of the static catalog. -/
def catalogMem (it : SearchItem) : Prop :=
  (it.symbol, it.name, it.typ) ∈ all_tickers

/-- Recognizer for `repoInit` events. -/
def isRepoInitEv : CallEv → Bool
  | CallEv.repoInit => true
  | _ => false

/-- Recognizer for `getContents` events. -/
def isGetContentsEv : CallEv → Bool
  | CallEv.getContents _ => true
  | _ => false

/-- Recognizer for `updateFile` events. -/
def isUpdateEv : CallEv → Bool
  | CallEv.updateFile _ _ _ _ => true
  | _ => false

/-- Recognizer for `createFile` events. -/
def isCreateEv : CallEv → Bool
  | CallEv.createFile _ _ _ => true
  | _ => false

/-- Recognizer for `yfDownload` events. -/
def isYfDownloadEv : CallEv → Bool
  | CallEv.yfDownload _ => true
  | _ => false

/-- Recognizer for `yfTicker` events. -/
def isYfTickerEv : CallEv → Bool
  | CallEv.yfTicker _ => true
  | _ => false

/-- Recognizer for `newsRead` events. -/
def isNewsReadEv : CallEv → Bool
  | CallEv.newsRead => true
  | _ => false

/-- Recognizer for `recsRead` events. -/
def isRecsReadEv : CallEv → Bool
  | CallEv.recsRead => true
  | _ => false

/-- The content argument carried by a commit event, if any. -/
def evContent : CallEv → Option String
  | CallEv.updateFile _ _ c _ => some c
  | CallEv.createFile _ _ c => some c
  | _ => none

/-! ## Helper lemmas -/

/-- Explicit characterization of the three-attempt retry loop. -/
theorem retryRun_three {α : Type} (orc : Nat → Except String α) (ev : CallEv) (d : Nat) :
    retryRun orc ev max_retries d =
      match orc 0 with
      | Except.ok a => (Except.ok a, [ev])
      | Except.error _ =>
        match orc 1 with
        | Except.ok a => (Except.ok a, [ev, CallEv.sleep d, ev])
        | Except.error _ =>
          match orc 2 with
          | Except.ok a =>
            (Except.ok a, [ev, CallEv.sleep d, ev, CallEv.sleep d, ev])
          | Except.error e =>
            (Except.error e, [ev, CallEv.sleep d, ev, CallEv.sleep d, ev]) := by
  rcases h0 : orc 0 with e0 | a0 <;> rcases h1 : orc 1 with e1 | a1 <;>
    rcases h2 : orc 2 with e2 | a2 <;>
      simp [retryRun, retryGo, max_retries, h0, h1, h2]

/-- Shifting the accumulator out of a string-append `foldl`. -/
theorem strFoldl_shift : ∀ (l : List String) (s : String),
    l.foldl (fun a b => a ++ b) s = s ++ l.foldl (fun a b => a ++ b) ""
  | [], s => by simp
  | r :: rest, s => by
    simp only [List.foldl_cons]
    rw [strFoldl_shift rest (s ++ r), strFoldl_shift rest ("" ++ r)]
    simp [String.append_assoc]

/-- `String.join` of a cons. -/
theorem strJoin_cons (a : String) (l : List String) :
    String.join (a :: l) = a ++ String.join l := by
  simp only [String.join, List.foldl_cons]
  rw [strFoldl_shift l ("" ++ a)]
  simp

/-- A `foldl` that appends `f r` per element, started at `s`, is `s`
followed by the joined per-element strings in order. -/
theorem foldl_append_join {α : Type} (f : α → String) : ∀ (l : List α) (s : String),
    l.foldl (fun acc r => acc ++ f r) s = s ++ String.join (l.map f)
  | [], s => by simp [String.join]
  | r :: rest, s => by
    simp only [List.foldl_cons, List.map_cons]
    rw [foldl_append_join f rest (s ++ f r), strJoin_cons, String.append_assoc]

/-- Every item produced by the partial-match loop is a catalog entry
satisfying one of the four match rules, provided the incoming results
already do. -/
theorem searchLoop_mem_inv (Q : String) (lim : Nat) :
    ∀ (entries : List (String × String × String)) (results : List SearchItem),
      (∀ e ∈ entries, e ∈ all_tickers) →
      (∀ it ∈ results, catalogMem it ∧ claimMatch Q it) →
      ∀ it ∈ searchLoop Q lim entries results, catalogMem it ∧ claimMatch Q it := by
  intro entries
  induction entries with
  | nil => intro results _ hres it hit; exact hres it (by simpa [searchLoop] using hit)
  | cons e rest ih =>
    intro results hent hres it hit
    simp only [searchLoop] at hit
    by_cases hlim : lim ≤ results.length
    · rw [if_pos hlim] at hit; exact hres it hit
    · rw [if_neg hlim] at hit
      by_cases hdup : results.any (fun r => r.symbol = e.1)
      · rw [if_pos hdup] at hit
        exact ih results (fun x hx => hent x (List.mem_cons_of_mem _ hx)) hres it hit
      · rw [if_neg hdup] at hit
        by_cases hm : searchMatch Q e.1 (pyUpper e.2.1)
        · rw [if_pos hm] at hit
          refine ih (results ++ [⟨e.1, e.2.1, e.2.2⟩])
            (fun x hx => hent x (List.mem_cons_of_mem _ hx)) ?_ it hit
          intro x hx
          rcases List.mem_append.mp hx with hx | hx
          · exact hres x hx
          · rcases List.mem_singleton.mp hx with rfl
            constructor
            · show (e.1, e.2.1, e.2.2) ∈ all_tickers
              exact hent e (List.mem_cons_self e rest)
            · simp only [searchMatch, Bool.or_eq_true] at hm
              rcases hm with (hm | hm) | hm
              · exact Or.inr (Or.inl hm)
              · exact Or.inr (Or.inr (Or.inl hm))
              · exact Or.inr (Or.inr (Or.inr hm))
        · rw [if_neg hm] at hit
          exact ih results (fun x hx => hent x (List.mem_cons_of_mem _ hx)) hres it hit

/-- The partial-match loop never introduces a duplicate symbol. -/
theorem searchLoop_nodup (Q : String) (lim : Nat) :
    ∀ (entries : List (String × String × String)) (results : List SearchItem),
      (results.map (fun it => it.symbol)).Nodup →
      ((searchLoop Q lim entries results).map (fun it => it.symbol)).Nodup := by
  intro entries
  induction entries with
  | nil => intro results h; simpa [searchLoop] using h
  | cons e rest ih =>
    intro results h
    simp only [searchLoop]
    by_cases hlim : lim ≤ results.length
    · rw [if_pos hlim]; exact h
    · rw [if_neg hlim]
      by_cases hdup : results.any (fun r => r.symbol = e.1)
      · rw [if_pos hdup]; exact ih results h
      · rw [if_neg hdup]
        by_cases hm : searchMatch Q e.1 (pyUpper e.2.1)
        · rw [if_pos hm]
          refine ih (results ++ [⟨e.1, e.2.1, e.2.2⟩]) ?_
          rw [List.map_append, List.nodup_append_comm]
          simp only [List.map_cons, List.map_nil, List.nil_append,
            List.singleton_append, List.nodup_cons]
          refine ⟨?_, h⟩
          intro hmem
          apply hdup
          rw [List.any_eq_true]
          rcases List.mem_map.mp hmem with ⟨r, hr, hsym⟩
          exact ⟨r, hr, by simp [hsym]⟩
        · rw [if_neg hm]; exact ih results h

/-- The exact-match seed consists of catalog entries matching the query,
with no duplicate symbol. -/
theorem searchInit_inv (Q : String) :
    (∀ it ∈ searchInit Q, catalogMem it ∧ claimMatch Q it) ∧
      ((searchInit Q).map (fun it => it.symbol)).Nodup := by
  rcases hf : all_tickers.find? (fun e => e.1 = Q) with _ | e
  · constructor
    · intro it hit
      simp [searchInit, hf] at hit
    · simp [searchInit, hf]
  · have hmem := List.mem_of_find?_eq_some hf
    have hQ : e.1 = Q := by
      have := List.find?_some hf
      simpa using this
    constructor
    · intro it hit
      simp only [searchInit, hf] at hit
      rcases List.mem_singleton.mp hit with rfl
      constructor
      · show (Q, e.2.1, e.2.2) ∈ all_tickers
        rw [← hQ]
        exact hmem
      · exact Or.inl rfl
    · simp [searchInit, hf]

/-- The relevance order is transitive. -/
theorem keyLe_trans (Q : String) : ∀ (a b c : SearchItem),
    keyLe Q a b → keyLe Q b c → keyLe Q a c := by
  intro a b c hab hbc
  simp only [keyLe, Bool.or_eq_true, Bool.and_eq_true, decide_eq_true_eq] at *
  omega

/-- The relevance order is total. -/
theorem keyLe_total (Q : String) : ∀ (a b : SearchItem),
    keyLe Q a b || keyLe Q b a := by
  intro a b
  simp only [keyLe, Bool.or_eq_true, Bool.and_eq_true, decide_eq_true_eq]
  omega

/-! ## Claim theorems -/

/-- C5: for every non-empty query (after stripping and uppercasing), a
catalog entry appears in the search result list only if the query
equals its symbol, is a substring of its symbol, the symbol starts with
the query, or the query is a substring of the entry's uppercased name;
entries matching none of these rules never appear, and no symbol
appears more than once in the results. -/
theorem c5_search_membership (q : String) (limit : Nat)
    (hq : pyUpper (pyStrip q) ≠ "") :
    (∀ it ∈ searchResults (pyUpper (pyStrip q)) limit,
        catalogMem it ∧ claimMatch (pyUpper (pyStrip q)) it) ∧
      ((searchResults (pyUpper (pyStrip q)) limit).map (fun it => it.symbol)).Nodup := by
  set Q := pyUpper (pyStrip q) with hQ
  have hcand : ∀ it ∈ searchLoop Q limit all_tickers (searchInit Q),
      catalogMem it ∧ claimMatch Q it :=
    searchLoop_mem_inv Q limit all_tickers (searchInit Q)
      (fun e he => he) (searchInit_inv Q).1
  have hnodup : ((searchLoop Q limit all_tickers (searchInit Q)).map
      (fun it => it.symbol)).Nodup :=
    searchLoop_nodup Q limit all_tickers (searchInit Q) (searchInit_inv Q).2
  constructor
  · intro it hit
    simp only [searchResults] at hit
    have h1 := List.mem_of_mem_take hit
    exact hcand it (List.mem_mergeSort.mp h1)
  · have hperm : List.Perm
        ((searchLoop Q limit all_tickers (searchInit Q)).mergeSort (keyLe Q))
        (searchLoop Q limit all_tickers (searchInit Q)) :=
      List.mergeSort_perm _ _
    have hnodup2 : (((searchLoop Q limit all_tickers (searchInit Q)).mergeSort
        (keyLe Q)).map (fun it => it.symbol)).Nodup :=
      ((hperm.map (fun it => it.symbol)).nodup_iff).mpr hnodup
    have hsub : List.Sublist
        ((searchResults Q limit).map (fun it => it.symbol))
        (((searchLoop Q limit all_tickers (searchInit Q)).mergeSort
          (keyLe Q)).map (fun it => it.symbol)) := by
      simp only [searchResults]
      exact (List.take_sublist _ _).map _
    exact hnodup2.sublist hsub

/-- Witness for C5 at the concrete query `"AAPL"` and limit `10`. -/
theorem c5_search_membership_witness :
    ((searchResults (pyUpper (pyStrip "AAPL")) 10).map (fun it => it.symbol)).Nodup :=
  (c5_search_membership "AAPL" 10 (by decide)).2

/-- C6: for every non-empty query and every non-negative limit, the
search result list has at most `limit` entries and is sorted by
relevance class — exact symbol match first, then symbols starting with
the query, then remaining matches — with shorter symbols before longer
ones within each class. -/
theorem c6_search_sorted (q : String) (limit : Nat)
    (hq : pyUpper (pyStrip q) ≠ "") :
    (searchResults (pyUpper (pyStrip q)) limit).length ≤ limit ∧
      (searchResults (pyUpper (pyStrip q)) limit).Pairwise
        (fun a b => keyLe (pyUpper (pyStrip q)) a b = true) := by
  set Q := pyUpper (pyStrip q) with hQ
  constructor
  · simp only [searchResults]
    exact List.length_take_le _ _
  · have hsorted := List.sorted_mergeSort
      (keyLe_trans Q) (keyLe_total Q)
      (searchLoop Q limit all_tickers (searchInit Q))
    simp only [searchResults]
    exact List.Pairwise.sublist (List.take_sublist _ _) hsorted

/-- Witness for C6 at the concrete query `"GO"` and limit `3`. -/
theorem c6_search_sorted_witness :
    (searchResults (pyUpper (pyStrip "GO")) 3).length ≤ 3 :=
  (c6_search_sorted "GO" 3 (by decide)).1

/-- C8: for every search request whose query is absent, empty, or only
whitespace after stripping, the handler returns HTTP 200 with an empty
JSON array as the body, regardless of the limit value. -/
theorem c8_empty_query (req : SearchReq)
    (h : pyStrip (req.q.getD "") = "") :
    searchHandler (Except.ok req) = (200, some (Json.arr [])) := by
  simp only [searchHandler]
  rw [h]
  rfl

/-- Witness for C8: a whitespace-only query with limit `7`. -/
theorem c8_empty_query_witness :
    searchHandler (Except.ok ⟨some "   ", 7⟩) = (200, some (Json.arr [])) :=
  c8_empty_query ⟨some "   ", 7⟩ (by decide)

/-- If the first attempt succeeds, the loop stops after one call. -/
theorem retryRun_ok_first {α : Type} (orc : Nat → Except String α) (ev : CallEv)
    (d : Nat) (a : α) (h0 : orc 0 = Except.ok a) :
    retryRun orc ev max_retries d = (Except.ok a, [ev]) := by
  have hr := retryRun_three orc ev d
  rw [h0] at hr
  exact hr

/-- If the first attempt fails and the second succeeds, the loop stops
after two calls with one sleep between them. -/
theorem retryRun_ok_second {α : Type} (orc : Nat → Except String α) (ev : CallEv)
    (d : Nat) (e0 : String) (a : α)
    (h0 : orc 0 = Except.error e0) (h1 : orc 1 = Except.ok a) :
    retryRun orc ev max_retries d = (Except.ok a, [ev, CallEv.sleep d, ev]) := by
  have hr := retryRun_three orc ev d
  rw [h0, h1] at hr
  exact hr

/-- If the first two attempts fail and the third succeeds, the loop
makes three calls with a sleep between consecutive ones. -/
theorem retryRun_ok_third {α : Type} (orc : Nat → Except String α) (ev : CallEv)
    (d : Nat) (e0 e1 : String) (a : α)
    (h0 : orc 0 = Except.error e0) (h1 : orc 1 = Except.error e1)
    (h2 : orc 2 = Except.ok a) :
    retryRun orc ev max_retries d =
      (Except.ok a, [ev, CallEv.sleep d, ev, CallEv.sleep d, ev]) := by
  have hr := retryRun_three orc ev d
  rw [h0, h1, h2] at hr
  exact hr

/-- If all three attempts fail, the loop re-raises the last exception
after three calls and two sleeps. -/
theorem retryRun_all_fail {α : Type} (orc : Nat → Except String α) (ev : CallEv)
    (d : Nat) (e0 e1 e2 : String)
    (h0 : orc 0 = Except.error e0) (h1 : orc 1 = Except.error e1)
    (h2 : orc 2 = Except.error e2) :
    retryRun orc ev max_retries d =
      (Except.error e2, [ev, CallEv.sleep d, ev, CallEv.sleep d, ev]) := by
  have hr := retryRun_three orc ev d
  rw [h0, h1, h2] at hr
  exact hr

/-- Count bounds for the three-attempt loop: at most three calls, one
sleep of the fixed delay between consecutive calls, and no other sleep
duration. -/
theorem retryRun_counts {α : Type} (orc : Nat → Except String α) (ev : CallEv)
    (d : Nat) (hne : ∀ n, ev ≠ CallEv.sleep n) :
    ((retryRun orc ev max_retries d).2.count ev ≤ 3) ∧
      ((retryRun orc ev max_retries d).2.count (CallEv.sleep d) + 1 =
        (retryRun orc ev max_retries d).2.count ev) ∧
      (∀ n, CallEv.sleep n ∈ (retryRun orc ev max_retries d).2 → n = d) := by
  have hne2 : ∀ n, CallEv.sleep n ≠ ev := fun n h => hne n h.symm
  have hr := retryRun_three orc ev d
  rcases h0 : orc 0 with e0 | a0 <;> rcases h1 : orc 1 with e1 | a1 <;>
    rcases h2 : orc 2 with e2 | a2 <;>
    simp only [h0, h1, h2] at hr <;>
    rw [hr] <;>
    refine ⟨?_, ?_, ?_⟩ <;>
    simp [List.count_cons, List.count_nil, beq_iff_eq, hne2] <;>
    intro n hn <;> simp [hn]

/-- C2: in the download handler, for every request with valid
parameters, the wrapped yfinance download call is attempted at most 3
times, with a fixed 5-second delay between consecutive failed attempts
(so at most 2 sleeps); if an attempt succeeds no further attempts are
made, and if the third attempt fails its exception propagates out of
the retry loop and becomes the handler's JSON error response (for the
single-ticker call and for the grouped multi-ticker call alike). -/
theorem c2_download_retry :
    (∀ (α : Type) (orc : Nat → Except String α) (ev : CallEv),
        (∀ n, ev ≠ CallEv.sleep n) →
        ((retryRun orc ev max_retries retry_delay).2.count ev ≤ 3) ∧
          ((retryRun orc ev max_retries retry_delay).2.count (CallEv.sleep 5) + 1 =
            (retryRun orc ev max_retries retry_delay).2.count ev) ∧
          ((retryRun orc ev max_retries retry_delay).2.count (CallEv.sleep 5) ≤ 2) ∧
          (∀ n, CallEv.sleep n ∈ (retryRun orc ev max_retries retry_delay).2 → n = 5)) ∧
      (∀ (α : Type) (orc : Nat → Except String α) (ev : CallEv),
        (∀ a, orc 0 = Except.ok a →
          retryRun orc ev max_retries retry_delay = (Except.ok a, [ev])) ∧
          (∀ e0 a, orc 0 = Except.error e0 → orc 1 = Except.ok a →
            retryRun orc ev max_retries retry_delay =
              (Except.ok a, [ev, CallEv.sleep 5, ev])) ∧
          (∀ e0 e1 a, orc 0 = Except.error e0 → orc 1 = Except.error e1 →
            orc 2 = Except.ok a →
            retryRun orc ev max_retries retry_delay =
              (Except.ok a, [ev, CallEv.sleep 5, ev, CallEv.sleep 5, ev])) ∧
          (∀ e0 e1 e2, orc 0 = Except.error e0 → orc 1 = Except.error e1 →
            orc 2 = Except.error e2 →
            (retryRun orc ev max_retries retry_delay).1 = Except.error e2)) ∧
      (∀ (env : YfEnv) (req : DownloadReq) (t : String),
        req.tickers = [t] → optFalsy req.start = false → optFalsy req.endDate = false →
        ∀ e0 e1 e2, env.download1 t 0 = Except.error e0 →
          env.download1 t 1 = Except.error e1 → env.download1 t 2 = Except.error e2 →
          (downloadHandler env (Except.ok req)).1 =
            (400, some (errObj ("Download failed: " ++ e2)))) ∧
      (∀ (env : YfEnv) (req : DownloadReq) (t : String) (rest : List String),
        req.tickers = t :: rest → rest ≠ [] →
        optFalsy req.start = false → optFalsy req.endDate = false →
        ∀ e0 e1 e2,
          env.downloadG (String.intercalate " " (t :: rest)) 0 = Except.error e0 →
          env.downloadG (String.intercalate " " (t :: rest)) 1 = Except.error e1 →
          env.downloadG (String.intercalate " " (t :: rest)) 2 = Except.error e2 →
          (downloadHandler env (Except.ok req)).1 =
            (400, some (errObj ("Download failed: " ++ e2)))) := by
  refine ⟨?_, ?_, ?_, ?_⟩
  · intro α orc ev hne
    have hcounts := retryRun_counts orc ev retry_delay hne
    refine ⟨hcounts.1, hcounts.2.1, ?_, hcounts.2.2⟩
    have h1 := hcounts.1
    have h2 : (retryRun orc ev max_retries retry_delay).2.count (CallEv.sleep 5) + 1 =
        (retryRun orc ev max_retries retry_delay).2.count ev := hcounts.2.1
    omega
  · intro α orc ev
    exact ⟨fun a h0 => retryRun_ok_first orc ev retry_delay a h0,
      fun e0 a h0 h1 => retryRun_ok_second orc ev retry_delay e0 a h0 h1,
      fun e0 e1 a h0 h1 h2 => retryRun_ok_third orc ev retry_delay e0 e1 a h0 h1 h2,
      fun e0 e1 e2 h0 h1 h2 => by
        rw [retryRun_all_fail orc ev retry_delay e0 e1 e2 h0 h1 h2]⟩
  · intro env req t ht hs he e0 e1 e2 h0 h1 h2
    have hfail := retryRun_all_fail (env.download1 t) (CallEv.yfDownload t)
      retry_delay e0 e1 e2 h0 h1 h2
    simp only [downloadHandler, downloadBody, ht, hs, he]
    simp [hfail]
  · intro env req t rest ht hrest hs he e0 e1 e2 h0 h1 h2
    have hfail := retryRun_all_fail (env.downloadG (String.intercalate " " (t :: rest)))
      (CallEv.yfDownload (String.intercalate " " (t :: rest)))
      retry_delay e0 e1 e2 h0 h1 h2
    have hlen : ¬(req.tickers.length = 1) := by
      rw [ht]
      intro hcontra
      simp only [List.length_cons, Nat.add_left_eq_self] at hcontra
      exact hrest (List.eq_nil_of_length_eq_zero hcontra)
    simp only [downloadHandler, downloadBody, ht, hs, he]
    rw [if_neg]
    · rw [if_neg (by rw [← ht]; exact hlen)]
      simp [hfail]
    · simp [optFalsy] at hs he
      simp [hs, he]

/-- Witness for C2: an environment failing on every attempt with the
attempt index in the message, and a valid single-ticker request. -/
theorem c2_download_retry_witness :
    ((retryRun (cYfEnvFail.download1 "AAPL") (CallEv.yfDownload "AAPL") max_retries
        retry_delay).2.count (CallEv.yfDownload "AAPL") ≤ 3) ∧
      (downloadHandler cYfEnvFail (Except.ok cDownloadReq1)).1 =
        (400, some (errObj ("Download failed: " ++ "boom2"))) := by
  have h := c2_download_retry
  refine ⟨(h.1 (List OhlcvRow) (cYfEnvFail.download1 "AAPL") (CallEv.yfDownload "AAPL")
    (by intro n hcon; cases hcon)).1, ?_⟩
  exact h.2.2.1 cYfEnvFail cDownloadReq1 "AAPL" rfl rfl rfl "boom0" "boom1" "boom2"
    rfl rfl rfl

/-- C9: for every download request with two or more tickers that
succeeds, the response contains only the first ticker's rows: the
`ticker` field equals the first element of the tickers list, and the
`data` list holds the rows found under that ticker in the provider's
grouped result (and is empty if the first ticker is absent from the
result columns); the remaining tickers contribute nothing. -/
theorem c9_multi_ticker_first_only (env : YfEnv) (req : DownloadReq) (t : String)
    (rest : List String) (g : List (String × List OhlcvRow))
    (ht : req.tickers = t :: rest) (hrest : rest ≠ [])
    (hs : optFalsy req.start = false) (he : optFalsy req.endDate = false)
    (hg : (retryRun (env.downloadG (String.intercalate " " (t :: rest)))
        (CallEv.yfDownload (String.intercalate " " (t :: rest))) max_retries
        retry_delay).1 = Except.ok g)
    (hne : groupedEmpty g = false) :
    (downloadBody env (Except.ok req)).1 =
      Except.ok (Json.obj
        [("data", Json.arr (match groupLookup t g with
                            | some rs => rs.map rowJson
                            | none => [])),
         ("ticker", Json.str t),
         ("start", Json.str (req.start.getD "")),
         ("end", Json.str (req.endDate.getD ""))]) := by
  have hlen : ¬(req.tickers.length = 1) := by
    rw [ht]
    intro hcontra
    simp only [List.length_cons, Nat.add_left_eq_self] at hcontra
    exact hrest (List.eq_nil_of_length_eq_zero hcontra)
  simp only [downloadBody, ht, hs, he]
  rw [if_neg]
  · rw [if_neg (by rw [← ht]; exact hlen)]
    rw [← ht] at hg ⊢
    simp only [ht, List.headD_cons]
    rw [ht] at hg
    simp only [hg, hne, downloadOkJson, ht, List.headD_cons]
    simp [hne]
  · simp [optFalsy] at hs he
    simp [hs, he]

/-- Witness for C9: a two-ticker request against a provider result that
carries both tickers. -/
theorem c9_multi_ticker_first_only_witness :
    (downloadBody cYfEnvOk (Except.ok cDownloadReq2)).1 =
      Except.ok (Json.obj
        [("data", Json.arr (match groupLookup "AAPL" [("AAPL", [cRow]), ("MSFT", [cRow])] with
                            | some rs => rs.map rowJson
                            | none => [])),
         ("ticker", Json.str "AAPL"),
         ("start", Json.str (cDownloadReq2.start.getD "")),
         ("end", Json.str (cDownloadReq2.endDate.getD ""))]) :=
  c9_multi_ticker_first_only cYfEnvOk cDownloadReq2 "AAPL" ["MSFT"]
    [("AAPL", [cRow]), ("MSFT", [cRow])] rfl (by decide) rfl rfl rfl rfl

/-- C10: in the fetch_docs handler, for every request with a non-empty
ticker (and a ticker construction that eventually succeeds), an
exception raised while reading the news feed or the analyst
recommendations does not produce an error response: the handler still
returns HTTP 200, with the corresponding `news` or `research` list left
empty. -/
theorem c10_docs_feed_failures (env : DocsEnv) (req : DocsReq)
    (ht : ¬(pyStrip req.ticker = ""))
    (hinit : (retryRun env.tickerInit (CallEv.yfTicker (pyStrip req.ticker))
        max_retries retry_delay).1 = Except.ok ()) :
    (fetchDocsHandler env (Except.ok req)).1 =
        (200, some (Json.obj [("news", Json.arr (newsData env)),
                              ("research", Json.arr (researchData env)),
                              ("ticker", Json.str (pyStrip req.ticker))])) ∧
      (∀ e, env.news = Except.error e → newsData env = []) ∧
      (∀ e, env.recs = Except.error e → researchData env = []) := by
  refine ⟨?_, ?_, ?_⟩
  · simp only [fetchDocsHandler, fetchDocsBody]
    rw [if_neg ht]
    simp [hinit, docsOkJson]
  · intro e hne
    simp [newsData, hne]
  · intro e hre
    simp [researchData, hre]

/-- Witness for C10: both feed reads raise; the handler still answers
200 with both lists empty. -/
theorem c10_docs_feed_failures_witness :
    (fetchDocsHandler cDocsEnvBothFail (Except.ok cDocsReq)).1 =
        (200, some (Json.obj [("news", Json.arr (newsData cDocsEnvBothFail)),
                              ("research", Json.arr (researchData cDocsEnvBothFail)),
                              ("ticker", Json.str (pyStrip cDocsReq.ticker))])) ∧
      newsData cDocsEnvBothFail = [] ∧ researchData cDocsEnvBothFail = [] := by
  have h := c10_docs_feed_failures cDocsEnvBothFail cDocsReq (by decide) rfl
  exact ⟨h.1, h.2.1 "HTTPError 404" rfl, h.2.2 "HTTPError 500" rfl⟩

/-- C1 counterexample: the claim demands that every escaping exception
produce a single-key JSON error body, but when the save_docs request
body fails to parse, the `except` block itself raises `NameError` on
the unbound `doc_type` and no JSON body is written. -/
theorem c1_saveDocs_no_json_body :
    ¬(∀ (env : GhEnv) (e : String), ∃ m,
        (saveDocsHandler env (Except.error e)).1 = (500, some (errObj m))) := by
  intro h
  obtain ⟨m, hm⟩ := h cGhEnvOk "Expecting value: line 1 column 1 (char 0)"
  simp [saveDocsHandler] at hm

/-- C1 amended: for every handler, an exception escaping the main body
after the request was parsed (and, for all handlers except save_docs,
also a request-parse failure) is converted to a single-key JSON error
body with the handler's fixed status — 400 for download and fetch_docs,
500 for search, save_docs and save_prices — and never a 200; the one
exception is save_docs on a failure that precedes the binding of the
`type` field (e.g. a malformed JSON body), where the error handler
itself raises and a 500 status is sent with no JSON body at all. -/
theorem c1_amended_error_responses :
    (∀ (env : YfEnv) (raw : Except String DownloadReq) (e : String),
        (downloadBody env raw).1 = Except.error e →
        (downloadHandler env raw).1 = (400, some (errObj ("Download failed: " ++ e)))) ∧
      (∀ (env : DocsEnv) (raw : Except String DocsReq) (e : String),
          (fetchDocsBody env raw).1 = Except.error e →
          (fetchDocsHandler env raw).1 =
            (400, some (errObj ("Failed to fetch docs: " ++ e)))) ∧
      (∀ (e : String),
          searchHandler (Except.error e) = (500, some (errObj ("Search failed: " ++ e)))) ∧
      (∀ (env : GhEnv) (raw : Except String SavePricesReq) (e : String),
          (savePricesBody env raw).1 = Except.error e →
          (savePricesHandler env raw).1 =
            (500, some (errObj ("Failed to save prices: " ++ e)))) ∧
      (∀ (env : GhEnv) (req : SaveDocsReq) (e : String),
          (saveDocsBody env req).1 = Except.error e →
          (saveDocsHandler env (Except.ok req)).1 =
            (500, some (errObj ("Failed to save " ++ pyStrip req.docType ++ ": " ++ e)))) ∧
      (∀ (env : GhEnv) (e : String),
          (saveDocsHandler env (Except.error e)).1 = (500, none)) := by
  refine ⟨?_, ?_, ?_, ?_, ?_, ?_⟩
  · intro env raw e hb
    simp only [downloadHandler, hb]
  · intro env raw e hb
    simp only [fetchDocsHandler, hb]
  · intro e
    simp only [searchHandler]
  · intro env raw e hb
    simp only [savePricesHandler, hb]
  · intro env req e hb
    simp only [saveDocsHandler, hb]
  · intro env e
    simp only [saveDocsHandler]

/-- Witness for the amended C1, one concrete instance per handler. -/
theorem c1_amended_error_responses_witness :
    (downloadHandler cYfEnvOk (Except.error "bad json")).1 =
        (400, some (errObj ("Download failed: " ++ "bad json"))) ∧
      (fetchDocsHandler cDocsEnvNewsFail (Except.error "bad json")).1 =
        (400, some (errObj ("Failed to fetch docs: " ++ "bad json"))) ∧
      searchHandler (Except.error "bad json") =
        (500, some (errObj ("Search failed: " ++ "bad json"))) ∧
      (savePricesHandler cGhEnvNoToken (Except.ok cSavePricesReq)).1 =
        (500, some (errObj ("Failed to save prices: " ++ "GitHub token not configured"))) ∧
      (saveDocsHandler cGhEnvNoToken (Except.ok cSaveDocsReq)).1 =
        (500, some (errObj ("Failed to save " ++ pyStrip cSaveDocsReq.docType ++ ": " ++
          "GitHub token not configured"))) ∧
      (saveDocsHandler cGhEnvNoToken (Except.error "bad json")).1 = (500, none) := by
  have h := c1_amended_error_responses
  exact ⟨h.1 cYfEnvOk (Except.error "bad json") "bad json" rfl,
         h.2.1 cDocsEnvNewsFail (Except.error "bad json") "bad json" rfl,
         h.2.2.1 "bad json",
         h.2.2.2.1 cGhEnvNoToken (Except.ok cSavePricesReq) "GitHub token not configured" rfl,
         h.2.2.2.2.1 cGhEnvNoToken cSaveDocsReq "GitHub token not configured" rfl,
         h.2.2.2.2.2 cGhEnvNoToken "bad json"⟩

/-- Every event in the retry loop's trace is the retried call's event or
a sleep of the fixed delay. -/
theorem retryRun_mem {α : Type} (orc : Nat → Except String α) (ev : CallEv) (d : Nat) :
    ∀ x ∈ (retryRun orc ev max_retries d).2, x = ev ∨ x = CallEv.sleep d := by
  have hr := retryRun_three orc ev d
  rcases h0 : orc 0 with e0 | a0 <;> rcases h1 : orc 1 with e1 | a1 <;>
    rcases h2 : orc 2 with e2 | a2 <;>
    simp only [h0, h1, h2] at hr <;>
    rw [hr] <;>
    intro x hx <;>
    simp only [List.mem_cons, List.mem_singleton, List.not_mem_nil, or_false] at hx <;>
    tauto

/-- A count over the retry trace of a predicate that ignores sleeps is
at most three. -/
theorem retryRun_countP_le {α : Type} (orc : Nat → Except String α) (ev : CallEv)
    (d : Nat) (p : CallEv → Bool) (hp : p (CallEv.sleep d) = false) :
    ((retryRun orc ev max_retries d).2.countP p) ≤ 3 := by
  have hr := retryRun_three orc ev d
  rcases h0 : orc 0 with e0 | a0 <;> rcases h1 : orc 1 with e1 | a1 <;>
    rcases h2 : orc 2 with e2 | a2 <;>
    simp only [h0, h1, h2] at hr <;>
    rw [hr] <;>
    cases hpe : p ev <;>
    simp [List.countP_cons, List.countP_nil, hp, hpe]

/-- A count over the retry trace of a predicate rejecting both the call
event and sleeps is zero. -/
theorem retryRun_countP_zero {α : Type} (orc : Nat → Except String α) (ev : CallEv)
    (d : Nat) (p : CallEv → Bool) (hp : p (CallEv.sleep d) = false)
    (hpe : p ev = false) :
    ((retryRun orc ev max_retries d).2.countP p) = 0 := by
  have hr := retryRun_three orc ev d
  rcases h0 : orc 0 with e0 | a0 <;> rcases h1 : orc 1 with e1 | a1 <;>
    rcases h2 : orc 2 with e2 | a2 <;>
    simp only [h0, h1, h2] at hr <;>
    rw [hr] <;>
    simp [List.countP_cons, List.countP_nil, hp, hpe]

/-- Every commit event emitted by the persistence step carries exactly
the content string that was passed in. -/
theorem persistFile_content (env : GhEnv) (p m c : String) :
    ∀ ev ∈ (persistFile env p m c).2, ∀ s, evContent ev = some s → s = c := by
  intro ev hev s hs
  unfold persistFile at hev
  rcases hg : env.getContents p with e | sha <;> simp only [hg] at hev
  · rcases hc : env.createFile p m c with e2 | sha2 <;> simp only [hc] at hev <;>
      simp only [List.mem_cons, List.mem_singleton, List.not_mem_nil, or_false] at hev <;>
      rcases hev with rfl | rfl <;> simp [evContent] at hs <;> exact hs.symm
  · rcases hu : env.updateFile p m c sha with e2 | sha2 <;> simp only [hu] at hev
    · rcases hc : env.createFile p m c with e3 | sha3 <;> simp only [hc] at hev <;>
        simp only [List.mem_cons, List.mem_singleton, List.not_mem_nil, or_false] at hev <;>
        rcases hev with rfl | rfl | rfl <;> simp [evContent] at hs <;> exact hs.symm
    · simp only [List.mem_cons, List.mem_singleton, List.not_mem_nil, or_false] at hev
      rcases hev with rfl | rfl <;> simp [evContent] at hs <;> exact hs.symm

/-- Counts of the individual commit calls inside the persistence step:
the existence check happens once, and each of update and create at most
once; the step never touches the client-initialisation call. -/
theorem persistFile_counts (env : GhEnv) (p m c : String) :
    ((persistFile env p m c).2.countP isGetContentsEv ≤ 1) ∧
      ((persistFile env p m c).2.countP isUpdateEv ≤ 1) ∧
      ((persistFile env p m c).2.countP isCreateEv ≤ 1) ∧
      ((persistFile env p m c).2.countP isRepoInitEv = 0) := by
  unfold persistFile
  rcases hg : env.getContents p with e | sha
  · rcases hc : env.createFile p m c with e2 | sha2 <;>
      simp [hg, hc, List.countP_cons, List.countP_nil, isGetContentsEv, isUpdateEv,
        isCreateEv, isRepoInitEv]
  · rcases hu : env.updateFile p m c sha with e2 | sha2
    · rcases hc : env.createFile p m c with e3 | sha3 <;>
        simp [hg, hu, hc, List.countP_cons, List.countP_nil, isGetContentsEv, isUpdateEv,
          isCreateEv, isRepoInitEv]
    · simp [hg, hu, List.countP_cons, List.countP_nil, isGetContentsEv, isUpdateEv,
        isCreateEv, isRepoInitEv]

/-- When the existence check fails, the persistence step goes straight
to the create call: no update call is made. -/
theorem persistFile_missing_creates (env : GhEnv) (p m c e : String)
    (hg : env.getContents p = Except.error e) :
    ((persistFile env p m c).2.countP isUpdateEv = 0) ∧
      ((persistFile env p m c).2.countP isCreateEv = 1) := by
  unfold persistFile
  rcases hc : env.createFile p m c with e2 | sha2 <;>
    simp [hg, hc, List.countP_cons, List.countP_nil, isUpdateEv, isCreateEv]

/-- The download handler's trace is empty (validation/parse failure) or
exactly one retry-loop trace around a `yf.download` call. -/
theorem downloadBody_trace (env : YfEnv) (raw : Except String DownloadReq) :
    (downloadBody env raw).2 = [] ∨
      (∃ t, (downloadBody env raw).2 =
        (retryRun (env.download1 t) (CallEv.yfDownload t) max_retries retry_delay).2) ∨
      (∃ q, (downloadBody env raw).2 =
        (retryRun (env.downloadG q) (CallEv.yfDownload q) max_retries retry_delay).2) := by
  rcases raw with e | req
  · left; rfl
  · simp only [downloadBody]
    split
    · left; rfl
    · split
      · rcases hr : (retryRun (env.download1 (req.tickers.headD ""))
            (CallEv.yfDownload (req.tickers.headD "")) max_retries retry_delay).1 with e | rows
        · simp only [hr]
          right; left; exact ⟨req.tickers.headD "", rfl⟩
        · simp only [hr]
          split
          · right; left; exact ⟨req.tickers.headD "", rfl⟩
          · right; left; exact ⟨req.tickers.headD "", rfl⟩
      · rcases hr : (retryRun (env.downloadG (String.intercalate " " req.tickers))
            (CallEv.yfDownload (String.intercalate " " req.tickers)) max_retries
            retry_delay).1 with e | g
        · simp only [hr]
          right; right; exact ⟨String.intercalate " " req.tickers, rfl⟩
        · simp only [hr]
          split
          · right; right; exact ⟨String.intercalate " " req.tickers, rfl⟩
          · right; right; exact ⟨String.intercalate " " req.tickers, rfl⟩

/-- The fetch_docs handler's trace is empty, a ticker-construction retry
trace, or that retry trace followed by exactly one news read and one
recommendations read. -/
theorem fetchDocsBody_trace (env : DocsEnv) (raw : Except String DocsReq) :
    (fetchDocsBody env raw).2 = [] ∨
      (∃ t, (fetchDocsBody env raw).2 =
        (retryRun env.tickerInit (CallEv.yfTicker t) max_retries retry_delay).2) ∨
      (∃ t, (fetchDocsBody env raw).2 =
        (retryRun env.tickerInit (CallEv.yfTicker t) max_retries retry_delay).2 ++
          [CallEv.newsRead, CallEv.recsRead]) := by
  rcases raw with e | req
  · left; rfl
  · simp only [fetchDocsBody]
    split
    · left; rfl
    · rcases hr : (retryRun env.tickerInit (CallEv.yfTicker (pyStrip req.ticker))
          max_retries retry_delay).1 with e | u
      · simp only [hr]
        right; left; exact ⟨pyStrip req.ticker, rfl⟩
      · simp only [hr]
        right; right; exact ⟨pyStrip req.ticker, rfl⟩

/-- The save_prices handler's trace is empty, a repository-initialisation
retry trace, or that retry trace followed by the persistence-step trace
for the CSV content built from the request rows. -/
theorem savePricesBody_trace (env : GhEnv) (req : SavePricesReq) :
    (savePricesBody env (Except.ok req)).2 = [] ∨
      (savePricesBody env (Except.ok req)).2 =
        (retryRun env.repoInit CallEv.repoInit max_retries retry_delay).2 ∨
      (∃ p m, (savePricesBody env (Except.ok req)).2 =
        (retryRun env.repoInit CallEv.repoInit max_retries retry_delay).2 ++
          (persistFile env p m (csv_content req.priceData)).2) := by
  simp only [savePricesBody]
  split
  · left; rfl
  · split
    · left; rfl
    · rcases hr : (retryRun env.repoInit CallEv.repoInit max_retries retry_delay).1 with e | u
      · simp only [hr]
        right; left; trivial
      · simp only [hr]
        rcases hp : (persistFile env
            ("data/" ++ pyStrip req.ticker ++ "/" ++ req.dateRangeEnd.getD env.today ++ ".csv")
            ("feat: " ++ pyStrip req.ticker ++ " prices to " ++ req.dateRangeEnd.getD env.today)
            (csv_content req.priceData)).1 with e2 | sha
        · simp only [hp]
          right; right
          exact ⟨_, _, rfl⟩
        · simp only [hp]
          right; right
          exact ⟨_, _, rfl⟩

/-- The save_docs handler's trace is empty, a repository-initialisation
retry trace, or that retry trace followed by one persistence-step
trace. -/
theorem saveDocsBody_trace (env : GhEnv) (req : SaveDocsReq) :
    (saveDocsBody env req).2 = [] ∨
      (saveDocsBody env req).2 =
        (retryRun env.repoInit CallEv.repoInit max_retries retry_delay).2 ∨
      (∃ p m c, (saveDocsBody env req).2 =
        (retryRun env.repoInit CallEv.repoInit max_retries retry_delay).2 ++
          (persistFile env p m c).2) := by
  simp only [saveDocsBody]
  split
  · left; rfl
  · split
    · left; rfl
    · split
      · left; rfl
      · rcases hr : (retryRun env.repoInit CallEv.repoInit max_retries retry_delay).1 with e | u
        · simp only [hr]
          right; left; trivial
        · simp only [hr]
          rcases hp : (persistFile env
              (pyStrip req.docType ++ "/" ++ pyStrip req.ticker ++ "/" ++ env.today ++ ".json")
              ("feat: " ++ pyStrip req.ticker ++ " " ++ pyStrip req.docType ++ " to " ++ env.today)
              (jsonDumps (Json.obj [("asOf", Json.str (env.nowIso ++ "Z")),
                ("items", Json.arr req.items)]))).1 with e2 | sha
          · simp only [hp]
            right; right
            exact ⟨_, _, _, rfl⟩
          · simp only [hp]
            right; right
            exact ⟨_, _, _, rfl⟩

/-- C7: for every valid save-prices request, the persisted CSV content
is exactly the fixed header line `Date,Open,High,Low,Close,Adj
Close,Volume` followed by one line per input row, in the same order as
the input list, where each line holds that row's seven fields in header
order with any absent field rendered as the empty string; every commit
call made by the handler carries exactly that content. -/
theorem c7_csv_content_shape :
    (∀ rows, csv_content rows =
        "Date,Open,High,Low,Close,Adj Close,Volume\n" ++
          String.join (rows.map (fun row =>
            String.intercalate ","
              [rowGet row "Date", rowGet row "Open", rowGet row "High", rowGet row "Low",
               rowGet row "Close", rowGet row "Adj Close", rowGet row "Volume"] ++ "\n"))) ∧
      (∀ (env : GhEnv) (req : SavePricesReq) (ev : CallEv) (c : String),
          ev ∈ (savePricesHandler env (Except.ok req)).2 → evContent ev = some c →
          c = csv_content req.priceData) := by
  constructor
  · intro rows
    rw [csv_content, foldl_append_join]
    rfl
  · intro env req ev c hev hc
    have htr : (savePricesHandler env (Except.ok req)).2 =
        (savePricesBody env (Except.ok req)).2 := rfl
    rw [htr] at hev
    rcases savePricesBody_trace env req with h | h | ⟨p, m, h⟩
    · rw [h] at hev
      exact absurd hev (List.not_mem_nil ev)
    · rw [h] at hev
      rcases retryRun_mem env.repoInit CallEv.repoInit retry_delay ev hev with rfl | rfl <;>
        simp [evContent] at hc
    · rw [h] at hev
      rcases List.mem_append.mp hev with hev | hev
      · rcases retryRun_mem env.repoInit CallEv.repoInit retry_delay ev hev with rfl | rfl <;>
          simp [evContent] at hc
      · exact persistFile_content env p m (csv_content req.priceData) ev hev c hc

/-- Witness for C7: the concrete one-row request; the update commit in
the trace carries exactly the header plus that row's line, with the
absent fields empty. -/
theorem c7_csv_content_shape_witness :
    "Date,Open,High,Low,Close,Adj Close,Volume\n2024-01-31,1.5,,,,,100\n" =
      csv_content cSavePricesReq.priceData :=
  c7_csv_content_shape.2 cGhEnvOk cSavePricesReq
    (CallEv.updateFile "data/AAPL/2024-01-31.csv" "feat: AAPL prices to 2024-01-31"
      "Date,Open,High,Low,Close,Adj Close,Volume\n2024-01-31,1.5,,,,,100\n" "oldsha")
    "Date,Open,High,Low,Close,Adj Close,Volume\n2024-01-31,1.5,,,,,100\n"
    (by decide) (by decide)

/-- C3 counterexample: the claim says a failure of any non-retried
external call is converted directly to the error response, but in
fetch_docs a failure of the news read (which is outside the retry loop)
is swallowed and the handler still answers 200. -/
theorem c3_news_failure_not_error :
    ¬(∀ (env : DocsEnv) (raw : Except String DocsReq) (e : String),
        env.news = Except.error e → ((fetchDocsHandler env raw).1).1 ≠ 200) := by
  intro h
  exact h cDocsEnvNewsFail (Except.ok cDocsReq) "HTTPError 404" rfl rfl

/-- C3 amended: the bounded retry with fixed delay wraps exactly one
call per handler — the yfinance download call in download, the Ticker
construction in fetch_docs, the GitHub client/repository initialisation
in the save handlers; every other external call happens at most once
per request; a failure of the news or recommendations read in
fetch_docs is swallowed (the handler still returns 200), and a failure
of the existence check in the save handlers routes to the create path
instead of an error response. -/
theorem c3_amended_retry_scope :
    (∀ (env : YfEnv) (raw : Except String DownloadReq) (ev : CallEv),
        ev ∈ (downloadHandler env raw).2 →
        (∃ q, ev = CallEv.yfDownload q) ∨ ev = CallEv.sleep 5) ∧
      (∀ (env : YfEnv) (raw : Except String DownloadReq),
          (downloadHandler env raw).2.countP isYfDownloadEv ≤ 3) ∧
      (∀ (env : DocsEnv) (raw : Except String DocsReq),
          (fetchDocsHandler env raw).2.countP isYfTickerEv ≤ 3 ∧
            (fetchDocsHandler env raw).2.countP isNewsReadEv ≤ 1 ∧
            (fetchDocsHandler env raw).2.countP isRecsReadEv ≤ 1) ∧
      (∀ (env : DocsEnv) (req : DocsReq) (e : String),
          ¬(pyStrip req.ticker = "") →
          (retryRun env.tickerInit (CallEv.yfTicker (pyStrip req.ticker)) max_retries
            retry_delay).1 = Except.ok () →
          env.news = Except.error e →
          ((fetchDocsHandler env (Except.ok req)).1).1 = 200) ∧
      (∀ (env : GhEnv) (req : SavePricesReq),
          (savePricesHandler env (Except.ok req)).2.countP isRepoInitEv ≤ 3 ∧
            (savePricesHandler env (Except.ok req)).2.countP isGetContentsEv ≤ 1 ∧
            (savePricesHandler env (Except.ok req)).2.countP isUpdateEv ≤ 1 ∧
            (savePricesHandler env (Except.ok req)).2.countP isCreateEv ≤ 1) ∧
      (∀ (env : GhEnv) (req : SaveDocsReq),
          (saveDocsHandler env (Except.ok req)).2.countP isRepoInitEv ≤ 3 ∧
            (saveDocsHandler env (Except.ok req)).2.countP isGetContentsEv ≤ 1 ∧
            (saveDocsHandler env (Except.ok req)).2.countP isUpdateEv ≤ 1 ∧
            (saveDocsHandler env (Except.ok req)).2.countP isCreateEv ≤ 1) ∧
      (∀ (env : GhEnv) (p m c e : String),
          env.getContents p = Except.error e →
          (persistFile env p m c).2.countP isUpdateEv = 0 ∧
            (persistFile env p m c).2.countP isCreateEv = 1) := by
  have hsp : ∀ (env : GhEnv) (req : SavePricesReq),
      (savePricesHandler env (Except.ok req)).2 =
        (savePricesBody env (Except.ok req)).2 := fun _ _ => rfl
  have hsd : ∀ (env : GhEnv) (req : SaveDocsReq),
      (saveDocsHandler env (Except.ok req)).2 = (saveDocsBody env req).2 :=
    fun _ _ => rfl
  refine ⟨?_, ?_, ?_, ?_, ?_, ?_, ?_⟩
  · intro env raw ev hev
    have htr : (downloadHandler env raw).2 = (downloadBody env raw).2 := rfl
    rw [htr] at hev
    rcases downloadBody_trace env raw with h | ⟨t, h⟩ | ⟨q, h⟩ <;> rw [h] at hev
    · exact absurd hev (List.not_mem_nil ev)
    · rcases retryRun_mem (env.download1 t) (CallEv.yfDownload t) retry_delay ev hev with
        rfl | rfl
      · exact Or.inl ⟨t, rfl⟩
      · exact Or.inr rfl
    · rcases retryRun_mem (env.downloadG q) (CallEv.yfDownload q) retry_delay ev hev with
        rfl | rfl
      · exact Or.inl ⟨q, rfl⟩
      · exact Or.inr rfl
  · intro env raw
    have htr : (downloadHandler env raw).2 = (downloadBody env raw).2 := rfl
    rw [htr]
    rcases downloadBody_trace env raw with h | ⟨t, h⟩ | ⟨q, h⟩ <;> rw [h]
    · simp
    · exact retryRun_countP_le _ _ _ _ rfl
    · exact retryRun_countP_le _ _ _ _ rfl
  · intro env raw
    have htr : (fetchDocsHandler env raw).2 = (fetchDocsBody env raw).2 := rfl
    rw [htr]
    rcases fetchDocsBody_trace env raw with h | ⟨t, h⟩ | ⟨t, h⟩ <;> rw [h]
    · simp
    · exact ⟨retryRun_countP_le _ _ _ _ rfl,
        by rw [retryRun_countP_zero _ _ _ _ rfl rfl]; omega,
        by rw [retryRun_countP_zero _ _ _ _ rfl rfl]; omega⟩
    · refine ⟨?_, ?_, ?_⟩ <;> rw [List.countP_append]
      · have h1 := retryRun_countP_le env.tickerInit (CallEv.yfTicker t) retry_delay
          isYfTickerEv rfl
        have h2 : List.countP isYfTickerEv [CallEv.newsRead, CallEv.recsRead] = 0 := rfl
        omega
      · have h1 := retryRun_countP_zero env.tickerInit (CallEv.yfTicker t) retry_delay
          isNewsReadEv rfl rfl
        have h2 : List.countP isNewsReadEv [CallEv.newsRead, CallEv.recsRead] = 1 := rfl
        omega
      · have h1 := retryRun_countP_zero env.tickerInit (CallEv.yfTicker t) retry_delay
          isRecsReadEv rfl rfl
        have h2 : List.countP isRecsReadEv [CallEv.newsRead, CallEv.recsRead] = 1 := rfl
        omega
  · intro env req e ht hinit hnews
    simp only [fetchDocsHandler, fetchDocsBody]
    rw [if_neg ht]
    simp [hinit]
  · intro env req
    rw [hsp]
    rcases savePricesBody_trace env req with h | h | ⟨p, m, h⟩ <;> rw [h]
    · simp
    · exact ⟨retryRun_countP_le _ _ _ _ rfl,
        by rw [retryRun_countP_zero _ _ _ _ rfl rfl]; omega,
        by rw [retryRun_countP_zero _ _ _ _ rfl rfl]; omega,
        by rw [retryRun_countP_zero _ _ _ _ rfl rfl]; omega⟩
    · have hpc := persistFile_counts env p m (csv_content req.priceData)
      have hz1 := retryRun_countP_zero env.repoInit CallEv.repoInit retry_delay
        isGetContentsEv rfl rfl
      have hz2 := retryRun_countP_zero env.repoInit CallEv.repoInit retry_delay
        isUpdateEv rfl rfl
      have hz3 := retryRun_countP_zero env.repoInit CallEv.repoInit retry_delay
        isCreateEv rfl rfl
      have hleq := retryRun_countP_le env.repoInit CallEv.repoInit retry_delay
        isRepoInitEv rfl
      refine ⟨?_, ?_, ?_, ?_⟩ <;> rw [List.countP_append] <;> omega
  · intro env req
    rw [hsd]
    rcases saveDocsBody_trace env req with h | h | ⟨p, m, c, h⟩ <;> rw [h]
    · simp
    · exact ⟨retryRun_countP_le _ _ _ _ rfl,
        by rw [retryRun_countP_zero _ _ _ _ rfl rfl]; omega,
        by rw [retryRun_countP_zero _ _ _ _ rfl rfl]; omega,
        by rw [retryRun_countP_zero _ _ _ _ rfl rfl]; omega⟩
    · have hpc := persistFile_counts env p m c
      have hz1 := retryRun_countP_zero env.repoInit CallEv.repoInit retry_delay
        isGetContentsEv rfl rfl
      have hz2 := retryRun_countP_zero env.repoInit CallEv.repoInit retry_delay
        isUpdateEv rfl rfl
      have hz3 := retryRun_countP_zero env.repoInit CallEv.repoInit retry_delay
        isCreateEv rfl rfl
      have hleq := retryRun_countP_le env.repoInit CallEv.repoInit retry_delay
        isRepoInitEv rfl
      refine ⟨?_, ?_, ?_, ?_⟩ <;> rw [List.countP_append] <;> omega
  · intro env p m c e hg
    exact persistFile_missing_creates env p m c e hg

/-- Witness for the amended C3: concrete instances of the conjuncts
that carry hypotheses. -/
theorem c3_amended_retry_scope_witness :
    ((fetchDocsHandler cDocsEnvNewsFail (Except.ok cDocsReq)).1).1 = 200 ∧
      ((persistFile cGhEnvMissing "data/AAPL/2024-01-31.csv" "m" "c").2.countP
          isUpdateEv = 0 ∧
        (persistFile cGhEnvMissing "data/AAPL/2024-01-31.csv" "m" "c").2.countP
          isCreateEv = 1) ∧
      (savePricesHandler cGhEnvMissing (Except.ok cSavePricesReq)).2.countP
        isUpdateEv ≤ 1 := by
  have h := c3_amended_retry_scope
  exact ⟨h.2.2.2.1 cDocsEnvNewsFail cDocsReq "HTTPError 404" (by decide) rfl rfl,
         h.2.2.2.2.2.2 cGhEnvMissing "data/AAPL/2024-01-31.csv" "m" "c"
           "404 Not Found" rfl,
         (h.2.2.2.2.1 cGhEnvMissing cSavePricesReq).2.2.1⟩

/-- C4 code-bug evidence: with the target file existing (the existence
check returns SHA `oldsha`) but the update commit failing, the bare
`except:` of the persistence step routes to `create_file`, so the
handler makes a create commit for a path that exists and returns 200
with the create commit's SHA — against the claim and against the code's
own except-branch comment (`File doesn't exist, create new`). -/
theorem c4_update_failure_falls_to_create :
    (savePricesHandler cGhEnvUpdateFail (Except.ok cSavePricesReq)).1 =
        (200, some (saveOkJson "createsha" "data/AAPL/2024-01-31.csv")) ∧
      (savePricesHandler cGhEnvUpdateFail (Except.ok cSavePricesReq)).2.countP
          isUpdateEv = 1 ∧
      (savePricesHandler cGhEnvUpdateFail (Except.ok cSavePricesReq)).2.countP
          isCreateEv = 1 := by
  refine ⟨rfl, rfl, rfl⟩
